import Mathlib

/-!
Verification of the orchestration logic in
`02_deploy_and_monitor/deploy_and_monitor.ipynb`.

The notebook sequences SDK calls against an external ML platform. The
embeddings below model, faithfully to the notebook's Python code, the
pure orchestration logic: the artifact locator, the inference request
strings, the capture configuration, S3 key rewriting for baselining,
capture-file listing, the report reader, and the manual monitoring
trigger. Parts of the behaviour that live in the external platform or
in repository files not present here (the entrypoint script, the
monitoring-job utility, the schedule service) are modelled from the
specification and are marked as such in their doc comments.
-/

namespace DeployAndMonitor

/-! ## Artifact Locator (cell 4) -/

/-- Summary of a training job as held by the platform: name, status,
creation time and the S3 location of its model artifacts. -/
structure TrainingJob where
  trainingJobName : String
  trainingJobStatus : String
  creationTime : Nat
  s3ModelArtifacts : String
deriving Repr, DecidableEq

/-- Substring test: does `needle` occur somewhere inside `hay`?  Models
the service-side `NameContains` filter of `list_training_jobs`. -/
def containsSub (hay needle : List Char) : Bool :=
  match hay with
  | [] => needle.isEmpty
  | _ :: t => needle.isPrefixOf hay || containsSub t needle

/-- Eligibility filter applied by the service call
`list_training_jobs(NameContains=base, StatusEquals='Completed', ...)`:
status is `Completed` and the name contains the base job name. -/
def eligibleJob (base : String) (j : TrainingJob) : Bool :=
  j.trainingJobStatus == "Completed" && containsSub j.trainingJobName.data base.data

/-- Insert a job into a list kept in descending creation-time order. -/
def insertDesc (j : TrainingJob) : List TrainingJob → List TrainingJob
  | [] => [j]
  | k :: ks =>
    if k.creationTime ≤ j.creationTime then j :: k :: ks
    else k :: insertDesc j ks

/-- Sort jobs by creation time, newest first: models
`SortBy='CreationTime', SortOrder='Descending'`. -/
def sortByCreationDesc (l : List TrainingJob) : List TrainingJob :=
  l.foldr insertDesc []

/-- The service call `list_training_jobs(NameContains=base,
SortBy='CreationTime', SortOrder='Descending', StatusEquals='Completed')`
as a function of the service's job table. -/
def list_training_jobs (service : List TrainingJob) (base : String) :
    List TrainingJob :=
  sortByCreationDesc (service.filter (eligibleJob base))

/-- Embedding of `get_latest_training_job_name` (cell 4): take the first
entry of the sorted listing, or raise `Training job not found.` when the
listing is empty. -/
def get_latest_training_job_name (service : List TrainingJob) (base : String) :
    Except String String :=
  match list_training_jobs service base with
  | [] => .error "Training job not found."
  | j :: _ => .ok j.trainingJobName

/-- Embedding of `get_training_job_s3_model_artifacts` (cell 4): describe
the job by name and read its artifacts location. -/
def get_training_job_s3_model_artifacts (service : List TrainingJob)
    (jobName : String) : Option String :=
  (service.find? (fun j => j.trainingJobName == jobName)).map
    (fun j => j.s3ModelArtifacts)

theorem mem_insertDesc {a j : TrainingJob} {l : List TrainingJob} :
    a ∈ insertDesc j l ↔ a = j ∨ a ∈ l := by
  induction l with
  | nil => simp [insertDesc]
  | cons k ks ih =>
    by_cases h : k.creationTime ≤ j.creationTime
    · simp [insertDesc, h]
    · simp [insertDesc, h, ih]
      tauto

theorem mem_sortByCreationDesc {a : TrainingJob} {l : List TrainingJob} :
    a ∈ sortByCreationDesc l ↔ a ∈ l := by
  induction l with
  | nil => simp [sortByCreationDesc]
  | cons k ks ih =>
    simp only [sortByCreationDesc, List.foldr] at *
    rw [mem_insertDesc, ih]
    simp

/-- Head of an `insertDesc` result has maximal creation time, given the
same property of the input list. -/
theorem headMax_insertDesc (j : TrainingJob) (l : List TrainingJob)
    (hl : ∀ h ∈ l.head?, ∀ a ∈ l, a.creationTime ≤ h.creationTime) :
    ∀ h ∈ (insertDesc j l).head?, ∀ a ∈ insertDesc j l,
      a.creationTime ≤ h.creationTime := by
  induction l with
  | nil =>
    intro h hh a ha
    simp [insertDesc] at hh ha
    subst hh; subst ha; exact le_refl _
  | cons k ks ih =>
    by_cases hk : k.creationTime ≤ j.creationTime
    · intro h hh a ha
      simp [insertDesc, hk] at hh ha
      subst hh
      rcases ha with rfl | rfl | ha
      · exact le_refl _
      · exact hk
      · exact le_trans (hl k (by simp) a (by simp [ha])) hk
    · intro h hh a ha
      simp [insertDesc, hk] at hh ha
      subst hh
      rcases ha with rfl | ha
      · exact le_refl _
      · rw [mem_insertDesc] at ha
        rcases ha with rfl | ha
        · omega
        · exact hl k (by simp) a (by simp [ha])

theorem headMax_sortByCreationDesc (l : List TrainingJob) :
    ∀ h ∈ (sortByCreationDesc l).head?, ∀ a ∈ sortByCreationDesc l,
      a.creationTime ≤ h.creationTime := by
  induction l with
  | nil => simp [sortByCreationDesc]
  | cons k ks ih =>
    simpa [sortByCreationDesc] using
      headMax_insertDesc k (sortByCreationDesc ks) ih

/-- C1. Artifact Locator: only jobs with status `Completed` whose name
contains the base name are eligible; `get_latest_training_job_name`
returns the name of an eligible job whose creation time is maximal among
all eligible jobs, and raises `Training job not found.` when no job is
eligible. -/
theorem artifact_locator_correct (service : List TrainingJob) (base : String) :
    (service.filter (eligibleJob base) = [] →
      get_latest_training_job_name service base =
        .error "Training job not found.") ∧
    (∀ n, get_latest_training_job_name service base = .ok n →
      ∃ j, j ∈ service ∧ eligibleJob base j = true ∧ j.trainingJobName = n ∧
        ∀ k, k ∈ service → eligibleJob base k = true →
          k.creationTime ≤ j.creationTime) := by
  constructor
  · intro h
    simp [get_latest_training_job_name, list_training_jobs, h,
      sortByCreationDesc]
  · intro n hn
    unfold get_latest_training_job_name at hn
    rcases hhead : list_training_jobs service base with _ | ⟨j, rest⟩
    · rw [hhead] at hn; exact absurd hn (by simp)
    · rw [hhead] at hn
      simp at hn
      have hjmem : j ∈ list_training_jobs service base := by
        rw [hhead]; simp
    -- membership in the sorted listing means membership in the filter
      have hj : j ∈ service.filter (eligibleJob base) := by
        rw [← mem_sortByCreationDesc]; exact hjmem
      rw [List.mem_filter] at hj
      refine ⟨j, hj.1, hj.2, hn, ?_⟩
      intro k hk hke
      have hkmem : k ∈ sortByCreationDesc (service.filter (eligibleJob base)) := by
        rw [mem_sortByCreationDesc, List.mem_filter]; exact ⟨hk, hke⟩
      have hhd : (sortByCreationDesc (service.filter (eligibleJob base))).head?
          = some j := by
        have : list_training_jobs service base = j :: rest := hhead
        unfold list_training_jobs at this
        rw [this]; rfl
      exact headMax_sortByCreationDesc _ j (by rw [hhd]; simp) k hkmem

/-- Demonstration job table: mixed statuses and creation times, one name
not matching the base name. -/
def demoJobs : List TrainingJob :=
  [⟨"nw-traffic-classification-xgb-1", "Completed", 10, "s3://b/m1"⟩,
   ⟨"nw-traffic-classification-xgb-2", "InProgress", 30, "s3://b/m2"⟩,
   ⟨"nw-traffic-classification-xgb-3", "Completed", 20, "s3://b/m3"⟩,
   ⟨"other-job", "Completed", 40, "s3://b/m4"⟩]

/-- Witness for C1 at a concrete job table: the locator picks the
completed, matching job with the latest creation time. -/
theorem artifact_locator_correct_witness :
    ∃ j, j ∈ demoJobs ∧ eligibleJob "nw-traffic-classification-xgb" j = true ∧
      j.trainingJobName = "nw-traffic-classification-xgb-3" ∧
      ∀ k, k ∈ demoJobs → eligibleJob "nw-traffic-classification-xgb" k = true →
        k.creationTime ≤ j.creationTime :=
  (artifact_locator_correct demoJobs "nw-traffic-classification-xgb").2
    "nw-traffic-classification-xgb-3" rfl

/-! ## Endpoint Deployer capture configuration (cell 11) -/

/-- Data-capture configuration, mirroring the `DataCaptureConfig`
constructor arguments used at endpoint creation. -/
structure DataCaptureConfig where
  enable_capture : Bool
  sampling_percentage : Nat
  destination_s3_uri : String
deriving Repr, DecidableEq

/-- Capture destination built in cell 11:
`'s3://{}/{}/monitoring/datacapture'.format(bucket_name, prefix)` with
the notebook-global prefix `aim362`. -/
def s3_capture_upload_path (bucket_name : String) : String :=
  "s3://" ++ bucket_name ++ "/" ++ "aim362" ++ "/monitoring/datacapture"

/-- The one capture configuration passed to `xgboost_model.deploy` in
cell 11: capture enabled, 100% sampling, destination as above. -/
def deployCaptureConfig (bucket_name : String) : DataCaptureConfig :=
  { enable_capture := true
    sampling_percentage := 100
    destination_s3_uri := s3_capture_upload_path bucket_name }

/-- C5. Endpoint Deployer: the capture configuration passed to endpoint
creation has a sampling percentage within [0,100], and whenever capture
is enabled its destination path is non-empty. -/
theorem capture_config_valid (bucket_name : String) :
    (deployCaptureConfig bucket_name).sampling_percentage ≤ 100 ∧
    ((deployCaptureConfig bucket_name).enable_capture = true →
      (deployCaptureConfig bucket_name).destination_s3_uri ≠ "") := by
  refine ⟨le_refl _, fun _ => ?_⟩
  simp [deployCaptureConfig, s3_capture_upload_path]
  intro h
  have : ("s3://" ++ bucket_name ++ "/" ++ "aim362" ++
      "/monitoring/datacapture").data = "".data := by rw [h]
  simp [String.data_append] at this

/-- Witness for C5 at a concrete bucket name. -/
theorem capture_config_valid_witness :
    (deployCaptureConfig "my-bucket").sampling_percentage ≤ 100 ∧
    (deployCaptureConfig "my-bucket").destination_s3_uri ≠ "" :=
  ⟨(capture_config_valid "my-bucket").1,
   (capture_config_valid "my-bucket").2 rfl⟩

/-! ## Schedule Manager (cells 44, 46, 48)

The create/describe/delete calls in the notebook go straight into the
external platform's monitoring-schedule service; the service itself is
not part of the repository. The state machine below is modelled from
the specification. -/

/-- Configuration captured by `create_monitoring_schedule` in cell 44:
schedule name, endpoint, baseline statistics and constraints references,
output location and cron expression. -/
structure ScheduleConfig where
  monitor_schedule_name : String
  endpoint_input : String
  statistics : String
  constraints : String
  output_s3_uri : String
  schedule_cron_expression : String
deriving Repr, DecidableEq

/-- Lifecycle state of the monitoring schedule: absent before creation,
active while registered (carrying its configuration), deleted after
removal. -/
inductive ScheduleState where
  | absent
  | active (cfg : ScheduleConfig)
  | deleted
deriving Repr, DecidableEq

/-- Modelled from the spec: `create_monitoring_schedule` (the platform
call behind cell 44) moves `absent` to `active` with the supplied
configuration; in any other state the platform rejects the call, so no
edit-in-place exists. -/
def create_monitoring_schedule (cfg : ScheduleConfig) :
    ScheduleState → Except String ScheduleState
  | .absent => .ok (.active cfg)
  | .active _ => .error "Monitoring schedule already exists."
  | .deleted => .ok (.active cfg)

/-- Modelled from the spec: `delete_monitoring_schedule` (cell 48) moves
`active` to `deleted`; deleting a schedule that does not exist fails. -/
def delete_monitoring_schedule :
    ScheduleState → Except String ScheduleState
  | .active _ => .ok .deleted
  | _ => .error "Monitoring schedule not found."

/-- Modelled from the spec: `describe_schedule` (cell 46) is a read-only
query, valid in any state; before any create it reports an
empty/absent result instead of throwing. -/
def describe_schedule : ScheduleState → Option ScheduleConfig
  | .active cfg => some cfg
  | _ => none

/-- Operations of the Schedule Manager. -/
inductive MonOp where
  | create (cfg : ScheduleConfig)
  | describe
  | delete
deriving Repr

/-- One step of the Schedule Manager state machine: create and delete
may change the state; describe never does. -/
def scheduleStep : MonOp → ScheduleState → Except String ScheduleState
  | .create cfg, s => create_monitoring_schedule cfg s
  | .delete, s => delete_monitoring_schedule s
  | .describe, s => .ok s

/-- C2. Schedule Manager state machine: create moves absent to active,
delete after create succeeds, describe is valid in any state and before
any create returns an absent result rather than throwing, and no
operation rewrites the configuration of an active schedule in place. -/
theorem schedule_state_machine (cfg : ScheduleConfig) :
    (create_monitoring_schedule cfg .absent = .ok (.active cfg)) ∧
    (delete_monitoring_schedule (.active cfg) = .ok .deleted) ∧
    (describe_schedule .absent = none) ∧
    (∀ s, scheduleStep .describe s = .ok s) ∧
    (∀ op c c', scheduleStep op (.active c) = .ok (.active c') → c' = c) := by
  refine ⟨rfl, rfl, rfl, fun _ => rfl, ?_⟩
  intro op c c' h
  cases op with
  | create cfg' =>
    simp [scheduleStep, create_monitoring_schedule] at h
  | describe =>
    simp [scheduleStep] at h
    exact h.symm
  | delete =>
    simp [scheduleStep, delete_monitoring_schedule] at h

/-- Demonstration schedule configuration from cell 44. -/
def demoScheduleConfig : ScheduleConfig :=
  { monitor_schedule_name := "nw-traffic-classification-xgb-mon-sch"
    endpoint_input := "nw-traffic-classification-xgb-ep"
    statistics := "statistics.json"
    constraints := "constraints.json"
    output_s3_uri := "s3://bucket/aim362/monitoring/reports"
    schedule_cron_expression := "cron(0 * ? * * *)" }

/-- Witness for C2 at the demonstration configuration: create then
delete succeeds, describe before create is absent, and a describe step
on an active schedule leaves its configuration unchanged. -/
theorem schedule_state_machine_witness :
    (create_monitoring_schedule demoScheduleConfig .absent =
      .ok (.active demoScheduleConfig)) ∧
    (delete_monitoring_schedule (.active demoScheduleConfig) = .ok .deleted) ∧
    (describe_schedule .absent = none) ∧
    demoScheduleConfig = demoScheduleConfig :=
  ⟨(schedule_state_machine demoScheduleConfig).1,
   (schedule_state_machine demoScheduleConfig).2.1,
   (schedule_state_machine demoScheduleConfig).2.2.1,
   (schedule_state_machine demoScheduleConfig).2.2.2.2 .describe
     demoScheduleConfig demoScheduleConfig rfl⟩

/-! ## Inference Client (cells 13 and 35) -/

/-- The first test row sent to the endpoint in cell 13 (expected
class 4), with the Python line continuations joined. -/
def test_values_class4 : String :=
  "80,1056736,3,4,20,964,20,0,6.666666667,11.54700538,964,0,241.0,482.0,931.1691850999999,6.6241710320000005,176122.6667,431204.4454,1056315,2,394,197.0,275.77164469999997,392,2,1056733,352244.3333,609743.1115,1056315,24,0,0,0,0,72,92,2.8389304419999997,3.78524059,0,964,123.0,339.8873763,115523.4286,0,0,1,1,0,0,0,1,1.0,140.5714286,6.666666667,241.0,0.0,0.0,0.0,0.0,0.0,0.0,3,20,4,964,8192,211,1,20,0.0,0.0,0,0,0.0,0.0,0,0,20,2,2018,1,0,1,0"

/-- The second test row sent to the endpoint in cell 13 (expected
class 7). -/
def test_values_class7 : String :=
  "80,10151,2,0,0,0,0,0,0.0,0.0,0,0,0.0,0.0,0.0,197.0249237,10151.0,0.0,10151,10151,10151,10151.0,0.0,10151,10151,0,0.0,0.0,0,0,0,0,0,0,40,0,197.0249237,0.0,0,0,0.0,0.0,0.0,0,0,0,0,1,0,0,0,0.0,0.0,0.0,0.0,0.0,0.0,0.0,0.0,0.0,0.0,2,0,0,0,32738,-1,0,20,0.0,0.0,0,0,0.0,0.0,0,0,21,2,2018,2,0,1,0"

/-- The artificially perturbed row template of cell 35: the second
field (Flow Duration) is left empty and the ninth field is a
placeholder filled from a sampled normal value via `str.format`. -/
def artificial_values : String :=
  "22,,40.3,0,0,0,0,0,\x7b0\x7d,0.0,0,0,0.0,0.0,0.0,0.0368169318,54322832.0,0.0,54322832,54322832,54322832,54322832.0,0.0,54322832,54322832,0,0.0,0.0,0,0,0,0,0,0,40,0,0.0368169318,0.0,0,0,0.0,0.0,0.0,0,0,0,0,1,0,0,0,0.0,0.0,0.0,0.0,0.0,0.0,0.0,0.0,0.0,0.0,2,0,0,0,279,-1,0,20,0.0,0.0,0,0,0.0,0.0,0,0,23,2,2018,4,0,1,0"

/-- Prefix test structural in the pattern argument: `isPfx p l` is true
when `p` is an initial segment of `l`. -/
def isPfx : List Char → List Char → Bool
  | [], _ => true
  | a :: as, l =>
    match l with
    | [] => false
    | b :: bs => a == b && isPfx as bs

/-- Single step of Python `str.replace` scanning, with explicit fuel
(one unit per character scanned): at each position, a non-empty match of
`old` is replaced by `new` and the scan resumes after the match,
left-to-right and non-overlapping, as in CPython. -/
def pyReplaceAux : Nat → List Char → List Char → List Char → List Char
  | 0, s, _, _ => s
  | fuel + 1, s, old, new =>
    match s with
    | [] => []
    | c :: rest =>
      if old ≠ [] ∧ isPfx old (c :: rest) then
        new ++ pyReplaceAux fuel (List.drop (old.length - 1) rest) old new
      else
        c :: pyReplaceAux fuel rest old new
termination_by structural fuel _ _ _ => fuel

/-- Python `s.replace(old, new)`: all non-overlapping occurrences are
replaced left to right; an empty `old` inserts `new` before every
character and at the end, as in CPython. -/
def pyReplace (s old new : String) : String :=
  if old.data.isEmpty then
    ⟨new.data ++ s.data.foldr (fun c acc => c :: (new.data ++ acc)) []⟩
  else
    ⟨pyReplaceAux s.data.length s.data old.data new.data⟩

/-- Python `template.format(arg)` for a template whose only placeholder
is `\x7b0\x7d`: every occurrence of the placeholder is replaced by
`arg`, as in cell 35's `artificial_values.format(...)`. -/
def pyFormat1 (template arg : String) : String :=
  pyReplace template "\x7b0\x7d" arg

/-- Fields of a comma-separated line, Python `s.split(',')`: empty
fields are kept, and the empty string has one (empty) field. -/
def commaSplit (l : List Char) : List (List Char) :=
  l.foldr
    (fun c acc =>
      if c = ',' then [] :: acc
      else
        match acc with
        | [] => [[c]]
        | f :: fs => (c :: f) :: fs)
    [[]]

/-- Number of comma-separated fields of a request line. -/
def numFields (s : String) : Nat := (commaSplit s.data).length

/-- A field is numeric when, after an optional leading minus sign, it is
a non-empty string of digits with at most one decimal point. -/
def isNumericField (l : List Char) : Bool :=
  let core :=
    match l with
    | '-' :: t => t
    | _ => l
  !core.isEmpty && core.all (fun c => c.isDigit || c == '.') &&
    decide (core.count '.' ≤ 1)

/-- Response values decoded by the inference client: either a scalar
class value or an array of values. -/
inductive JVal where
  | num (n : Int)
  | arr (elems : List JVal)
deriving Repr

/-- Scalar test on a decoded response. -/
def isScalar : JVal → Bool
  | .num _ => true
  | .arr _ => false

/-- Modelled from the spec: the hosting container's default output
function would encode the predicted class as a one-element array
(for class 3 it would output `[3.]`, per cell 6's description). -/
def defaultContainerOutput (p : Int) : JVal := .arr [.num p]

/-- Modelled from the spec: the entrypoint `source_dir/deploy_xgboost.py`
(shown in cell 7 but not part of this repository snapshot) re-defines
the output functions to extract the class value from the default array
output, so the encoded response is the scalar class value. -/
def entrypointOutput (p : Int) : JVal := .num p

/-- Round trip of `pred.predict(row)` in cell 13: the CSV-serialized row
is classified by the deployed model `m` and the response is encoded by
the entrypoint's output function, then decoded by the client. -/
def predictDecoded (m : String → Int) (row : String) : JVal :=
  entrypointOutput (m row)

/-- C3. Inference Client: every decoded response is a single scalar
class value, never the container's default array encoding; in
particular, when the model classifies the fixed class-4 row as 4, the
decoded output is exactly the scalar 4, not the array `[4.0]`. -/
theorem inference_scalar_output (m : String → Int) (row : String) :
    isScalar (predictDecoded m row) = true ∧
    predictDecoded m row = .num (m row) ∧
    predictDecoded m row ≠ defaultContainerOutput (m row) ∧
    (m test_values_class4 = 4 →
      predictDecoded m test_values_class4 = .num 4) := by
  refine ⟨rfl, rfl, ?_, ?_⟩
  · intro h
    exact JVal.noConfusion h
  · intro h
    simp [predictDecoded, entrypointOutput, h]

/-- Witness for C3 with a concrete model classifying the fixed row as
class 4: the decoded output is the scalar 4. -/
theorem inference_scalar_output_witness :
    isScalar (predictDecoded (fun _ => 4) test_values_class4) = true ∧
    predictDecoded (fun _ => 4) test_values_class4 = .num 4 :=
  ⟨(inference_scalar_output (fun _ => 4) test_values_class4).1,
   (inference_scalar_output (fun _ => 4) test_values_class4).2.2.2 rfl⟩

set_option maxRecDepth 40000 in
/-- C4, counterexample: the first test request of cell 13 has 84
comma-separated fields, not 78 as claimed. -/
theorem inference_request_not_78_fields :
    numFields test_values_class4 ≠ 78 ∧ numFields test_values_class4 = 84 := by
  constructor
  · decide
  · decide

set_option maxRecDepth 40000 in
/-- C4, amended: every inference request the notebook sends is a single
comma-separated line of exactly 84 fields; in the two fixed test rows
all 84 fields are numeric, while the artificially perturbed rows of
cell 35 leave their second field empty, so not all of their fields are
numeric; responses are decoded class scalars (see C3). -/
theorem inference_request_format_amended :
    numFields test_values_class4 = 84 ∧
    numFields test_values_class7 = 84 ∧
    (commaSplit test_values_class4.data).all isNumericField = true ∧
    (commaSplit test_values_class7.data).all isNumericField = true ∧
    numFields (pyFormat1 artificial_values "1.0") = 84 ∧
    (commaSplit (pyFormat1 artificial_values "1.0").data).get? 1 =
      some [] ∧
    (commaSplit (pyFormat1 artificial_values "1.0").data).all
      isNumericField = false ∧
    (∀ m : String → Int,
      isScalar (predictDecoded m test_values_class4) = true) := by
  refine ⟨by decide, by decide, by decide, by decide, by decide, by decide,
    by decide, fun _ => rfl⟩

/-! ## Report Reader (cell 58)

Cell 58 reads the downloaded `constraint_violations.json`, parses it
with Python's `json.loads` and builds a data frame with
`pd.io.json.json_normalize(json.loads(data)['violations'])`. The JSON
parser below is modelled from the spec ("no schema validation beyond
what the JSON parser enforces"): `json.loads` itself is library code
outside this repository, so it is embedded as a standard JSON
recursive-descent parser following CPython's number regex and
fail-on-trailing-data behaviour. -/

/-- Parsed JSON values.  Number lexemes are kept as written, since the
report reader never does arithmetic on them. -/
inductive Json where
  | null
  | bool (b : Bool)
  | num (lexeme : String)
  | str (s : String)
  | arr (elems : List Json)
  | obj (fields : List (String × Json))
deriving Repr

/-- Drop leading JSON whitespace. -/
def skipWs : List Char → List Char
  | [] => []
  | c :: rest =>
    if c = ' ' ∨ c = '\n' ∨ c = '\t' ∨ c = '\r' then skipWs rest
    else c :: rest

/-- Translate a character following a backslash in a JSON string. -/
def unescapeChar (e : Char) : Char :=
  if e = 'n' then '\n'
  else if e = 't' then '\t'
  else if e = 'r' then '\r'
  else e

/-- Parse the remainder of a JSON string after its opening quote,
returning the decoded characters and the rest of the input. -/
def parseStringRest : List Char → Except String (List Char × List Char)
  | [] => .error "Unterminated string"
  | '"' :: rest => .ok ([], rest)
  | '\\' :: [] => .error "Unterminated string"
  | '\\' :: e :: rest' =>
    match parseStringRest rest' with
    | .error msg => .error msg
    | .ok (s, r) => .ok (unescapeChar e :: s, r)
  | c :: rest =>
    match parseStringRest rest with
    | .error msg => .error msg
    | .ok (s, r) => .ok (c :: s, r)

/-- Exponent part of a JSON number, backtracking when no digits follow
(as CPython's number regex does). -/
def parseExpPart (e : Char) (t : List Char) : List Char × List Char :=
  let (sgn, t1) :=
    match t with
    | '+' :: u => (['+'], u)
    | '-' :: u => (['-'], u)
    | _ => (([] : List Char), t)
  let (d, r) := t1.span (fun c => c.isDigit)
  if d.isEmpty then ([], e :: t) else (e :: (sgn ++ d), r)

/-- Parse a JSON number lexeme following CPython's regex
`(-?(?:0|[1-9]\d*))(\.\d+)?([eE][-+]?\d+)?`: leading zeros end the
integer part, a bare dot or exponent is left unconsumed. -/
def parseNumber (l : List Char) : Except String (List Char × List Char) :=
  let (neg, l1) :=
    match l with
    | '-' :: t => (true, t)
    | _ => (false, l)
  match l1 with
  | [] => .error "Expecting value"
  | c :: _ =>
    if !c.isDigit then .error "Expecting value"
    else
      let (ip, r1) :=
        if c = '0' then (['0'], l1.tail) else l1.span (fun d => d.isDigit)
      let (fp, r2) :=
        match r1 with
        | '.' :: t =>
          let (d2, r') := t.span (fun d => d.isDigit)
          if d2.isEmpty then (([] : List Char), r1) else ('.' :: d2, r')
        | _ => (([] : List Char), r1)
      let (ep, r3) :=
        match r2 with
        | 'e' :: t => parseExpPart 'e' t
        | 'E' :: t => parseExpPart 'E' t
        | _ => (([] : List Char), r2)
      .ok ((if neg then ['-'] else []) ++ ip ++ fp ++ ep, r3)

/-- Consume an expected literal tail (`rue`, `alse`, `ull`). -/
def expectLit (lit : String) (l : List Char) (v : Json) :
    Except String (Json × List Char) :=
  if lit.data.isPrefixOf l then .ok (v, l.drop lit.data.length)
  else .error "Expecting value"

mutual

/-- Parse one JSON value from the input; the fuel bounds recursion and
is chosen large enough for the whole input in `loads`. -/
def parseValue : Nat → List Char → Except String (Json × List Char)
  | 0, _ => .error "Recursion limit exceeded"
  | fuel + 1, l =>
    match skipWs l with
    | [] => .error "Expecting value"
    | c :: rest =>
      if c = '\x7b' then
        match parseObjectBody fuel rest true with
        | .error e => .error e
        | .ok (fs, r) => .ok (.obj fs, r)
      else if c = '[' then
        match parseArrayBody fuel rest true with
        | .error e => .error e
        | .ok (vs, r) => .ok (.arr vs, r)
      else if c = '"' then
        match parseStringRest rest with
        | .error e => .error e
        | .ok (s, r) => .ok (.str ⟨s⟩, r)
      else if c = 't' then expectLit "rue" rest (.bool true)
      else if c = 'f' then expectLit "alse" rest (.bool false)
      else if c = 'n' then expectLit "ull" rest .null
      else if c = '-' ∨ c.isDigit then
        match parseNumber (c :: rest) with
        | .error e => .error e
        | .ok (lex, r) => .ok (.num ⟨lex⟩, r)
      else .error "Expecting value"
termination_by structural fuel _ => fuel

/-- Parse the elements of an array after `[`; `first` marks that no
element has been read yet, so `]` may close an empty array. -/
def parseArrayBody : Nat → List Char → Bool →
    Except String (List Json × List Char)
  | 0, _, _ => .error "Recursion limit exceeded"
  | fuel + 1, l, first =>
    let l' := skipWs l
    if first ∧ l'.head? = some ']' then .ok ([], l'.tail)
    else
      match parseValue fuel l' with
      | .error e => .error e
      | .ok (v, r) =>
        match skipWs r with
        | ',' :: r2 =>
          match parseArrayBody fuel r2 false with
          | .error e => .error e
          | .ok (vs, r3) => .ok (v :: vs, r3)
        | ']' :: r2 => .ok ([v], r2)
        | _ => .error "Expecting ',' delimiter"
termination_by structural fuel _ _ => fuel

/-- Parse the members of an object after an opening brace; `first`
marks that no member has been read yet, so a closing brace may close an
empty object. -/
def parseObjectBody : Nat → List Char → Bool →
    Except String (List (String × Json) × List Char)
  | 0, _, _ => .error "Recursion limit exceeded"
  | fuel + 1, l, first =>
    let l' := skipWs l
    if first ∧ l'.head? = some '\x7d' then .ok ([], l'.tail)
    else
      match l' with
      | '"' :: r0 =>
        match parseStringRest r0 with
        | .error e => .error e
        | .ok (k, r1) =>
          match skipWs r1 with
          | ':' :: r2 =>
            match parseValue fuel r2 with
            | .error e => .error e
            | .ok (v, r3) =>
              match skipWs r3 with
              | ',' :: r4 =>
                match parseObjectBody fuel r4 false with
                | .error e => .error e
                | .ok (fs, r5) => .ok ((⟨k⟩, v) :: fs, r5)
              | '\x7d' :: r4 => .ok ([(⟨k⟩, v)], r4)
              | _ => .error "Expecting ',' delimiter"
          | _ => .error "Expecting ':' delimiter"
      | _ => .error "Expecting property name enclosed in double quotes"
termination_by structural fuel _ _ => fuel

end

/-- Python `json.loads`: parse one value and reject trailing data. -/
def loads (data : String) : Except String Json :=
  match parseValue (2 * data.length + 2) data.data with
  | .error e => .error e
  | .ok (j, rest) =>
    if (skipWs rest).isEmpty then .ok j else .error "Extra data"

/-- Python dict indexing on a parsed object: with duplicate keys the
last binding wins, as in `json.loads`. -/
def jsonGet (fields : List (String × Json)) (key : String) : Option Json :=
  (fields.reverse.find? (fun f => f.1 == key)).map (fun f => f.2)

/-- Row count of `pd.io.json.json_normalize(x)`: one row per entry of a
list, one row for a single record, an error otherwise. -/
def json_normalize_rowCount : Json → Except String Nat
  | .arr elems => .ok elems.length
  | .obj _ => .ok 1
  | _ => .error "TypeError: data argument is not iterable"

/-- Embedding of cell 58: `json.loads(data)['violations']` fed to
`json_normalize`; a parse failure propagates (MalformedArtifact), a
missing key raises `KeyError`, and no other validation is applied. -/
def violations_df_rowCount (data : String) : Except String Nat :=
  match loads data with
  | .error e => .error e
  | .ok j =>
    match j with
    | .obj fields =>
      match jsonGet fields "violations" with
      | none => .error "KeyError: violations"
      | some v => json_normalize_rowCount v
    | _ => .error "TypeError: string indices must be integers"

/-- C6. Report Reader: parsing a well-formed violations document yields
a tabular view with one row per entry of its violations list, and a
document the JSON parser rejects fails with that parse error
(MalformedArtifact), with no schema validation beyond the parser. -/
theorem report_reader_correct :
    (∀ data fields vs,
      loads data = .ok (.obj fields) →
      jsonGet fields "violations" = some (.arr vs) →
      violations_df_rowCount data = .ok vs.length) ∧
    (∀ data e, loads data = .error e →
      violations_df_rowCount data = .error e) := by
  constructor
  · intro data fields vs h1 h2
    simp [violations_df_rowCount, h1, h2, json_normalize_rowCount]
  · intro data e h
    simp [violations_df_rowCount, h]

/-- A well-formed violations document with two entries. -/
def goodViolationsDoc : String :=
  "\x7b\"violations\":[\x7b\"name\":\"a\"\x7d,\x7b\"name\":\"b\"\x7d]\x7d"

/-- The two entries of `goodViolationsDoc`'s violations list. -/
def goodViolationsList : List Json :=
  [.obj [("name", .str "a")], .obj [("name", .str "b")]]

/-- A malformed violations document (truncated after the colon). -/
def malformedViolationsDoc : String := "\x7b\"violations\":"

/-- Witness for C6: the concrete well-formed document yields two rows,
and the concrete malformed document fails with the parse error. -/
theorem report_reader_correct_witness :
    violations_df_rowCount goodViolationsDoc = .ok 2 ∧
    violations_df_rowCount malformedViolationsDoc =
      .error "Expecting value" :=
  ⟨report_reader_correct.1 goodViolationsDoc
      [("violations", Json.arr goodViolationsList)] goodViolationsList
      (by rfl) (by rfl),
   report_reader_correct.2 malformedViolationsDoc "Expecting value" (by rfl)⟩

/-! ## Capture-file and report listing (cells 15 and 54) -/

/-- Embedding of cell 15: list the capture prefix and build S3 URIs
from the listed keys. `result.get('Contents')` is `None` when nothing
has been delivered yet; iterating over `None` raises a `TypeError`,
and cell 15 has no handler, so the error reaches the operator (the
notebook tells the operator to retry after a minute). -/
def listCaptureFiles (bucket_name : String)
    (contents : Option (List String)) : Except String (List String) :=
  match contents with
  | none => .error "TypeError: 'NoneType' object is not iterable"
  | some keys => .ok (keys.map (fun k => "s3://" ++ bucket_name ++ "/" ++ k))

/-- The body of the `try` block of cell 54: the same listing logic for
monitoring reports. -/
def monitoringReportsTryBlock (bucket_name : String)
    (contents : Option (List String)) : Except String (List String) :=
  match contents with
  | none => .error "TypeError: 'NoneType' object is not iterable"
  | some keys => .ok (keys.map (fun k => "s3://" ++ bucket_name ++ "/" ++ k))

/-- Embedding of cell 54: the report listing is wrapped in a bare
`try/except`; any failure is caught locally and replaced by the
fallback output `No monitoring reports found.`. -/
def monitoringReportsStep (bucket_name : String)
    (contents : Option (List String)) : List String × String :=
  match monitoringReportsTryBlock bucket_name contents with
  | .ok reports => (reports, "Monitoring Reports Files: ")
  | .error _ => ([], "No monitoring reports found.")

/-- C7, counterexample: the report-listing step of cell 54 performs
local recovery. With no listed contents its inner listing fails with
the platform's `TypeError`, yet the step completes normally and reports
a fallback message instead of the platform's message, so it is not true
that every failure aborts its step. -/
theorem error_propagation_counterexample :
    monitoringReportsTryBlock "sagemaker-bucket" none =
      .error "TypeError: 'NoneType' object is not iterable" ∧
    monitoringReportsStep "sagemaker-bucket" none =
      ([], "No monitoring reports found.") :=
  ⟨rfl, rfl⟩

/-- C7, amended: failures propagate uncaught with the platform's
message everywhere except the monitoring-report listing of cell 54; in
particular, listing the capture prefix before capture data has been
delivered surfaces the `TypeError` for the operator to retry manually,
while cell 54 catches any failure and prints a fallback message. -/
theorem error_propagation_amended (bucket_name : String) :
    listCaptureFiles bucket_name none =
      .error "TypeError: 'NoneType' object is not iterable" ∧
    (∀ keys, listCaptureFiles bucket_name (some keys) =
      .ok (keys.map (fun k => "s3://" ++ bucket_name ++ "/" ++ k))) ∧
    monitoringReportsStep bucket_name none =
      ([], "No monitoring reports found.") :=
  ⟨rfl, fun _ => rfl, rfl⟩

/-! ## Manual Trigger (cell 51)

`run_model_monitor_job_processor` lives in `monitoringjob_utils.py`,
which the notebook links but which is not part of this repository
snapshot; the definitions below are modelled from the spec. The
platform's comparison job itself is abstracted as a function `analyze`
from its resolved inputs to the produced report artifacts, since the
drift-detection statistics are explicitly out of the spec's scope. -/

/-- Resolved inputs of one comparison pass: captured data path,
baseline statistics and constraints paths, report output path, and the
post-analytics processor script path. -/
structure MonitoringJobInputs where
  data_capture_path : String
  statistics_path : String
  constraints_path : String
  reports_path : String
  postprocessor_path : String
deriving Repr, DecidableEq

/-- Modelled from the spec: a scheduled execution of the Schedule
Manager runs the platform's comparison job on the schedule's resolved
inputs and yields its report artifacts. -/
def scheduledExecutionArtifacts
    (analyze : MonitoringJobInputs → List String)
    (inputs : MonitoringJobInputs) : List String :=
  analyze inputs

/-- Modelled from the spec: `run_model_monitor_job_processor`
(cell 51) synchronously runs one comparison pass of the same platform
job on explicitly given paths; region, instance type and role choose
where the processing job runs, not what it computes. -/
def run_model_monitor_job_processor
    (analyze : MonitoringJobInputs → List String)
    (region instance_type role : String)
    (data_capture_path statistics_path constraints_path
      reports_path postprocessor_path : String) : List String :=
  scheduledExecutionArtifacts analyze
    ⟨data_capture_path, statistics_path, constraints_path,
      reports_path, postprocessor_path⟩

/-- C8. Manual Trigger: for any underlying comparison semantics, one
manual invocation with explicit paths produces exactly the artifacts of
a scheduled execution on the same resolved inputs, independently of the
region, instance type and role arguments. -/
theorem manual_trigger_equivalent
    (analyze : MonitoringJobInputs → List String)
    (region instance_type role dcp sp cp rp pp : String) :
    run_model_monitor_job_processor analyze region instance_type role
        dcp sp cp rp pp =
      scheduledExecutionArtifacts analyze ⟨dcp, sp, cp, rp, pp⟩ ∧
    (∀ region' instance_type' role',
      run_model_monitor_job_processor analyze region' instance_type' role'
          dcp sp cp rp pp =
        run_model_monitor_job_processor analyze region instance_type role
          dcp sp cp rp pp) :=
  ⟨rfl, fun _ _ _ => rfl⟩

/-! ## Manual Trigger input selection (cell 50) -/

/-- Index of the last occurrence of a character in a list, if any. -/
def lastIndexOf (l : List Char) (c : Char) : Option Nat :=
  match l with
  | [] => none
  | x :: xs =>
    match lastIndexOf xs c with
    | some i => some (i + 1)
    | none => if x = c then some 0 else none

/-- Python `s.rfind(c)`: index of the last occurrence, `-1` if none. -/
def pyRfind (s : String) (c : Char) : Int :=
  match lastIndexOf s.data c with
  | some i => (i : Int)
  | none => -1

/-- Python `s[:i]`: a negative bound counts from the end, and bounds
are clamped to the string. -/
def pySliceTo (s : String) (i : Int) : String :=
  let e : Int := if i < 0 then i + (s.data.length : Int) else i
  ⟨s.data.take (max e 0).toNat⟩

/-- Embedding of cell 50:
`capture_files[len(capture_files) - 1][: ...rfind('/')]` — the captured
data path for the manual trigger is the last listed capture file
truncated at its last slash; an empty listing raises `IndexError`. -/
def data_capture_path_of (capture_files : List String) :
    Except String String :=
  match capture_files.getLast? with
  | none => .error "IndexError: list index out of range"
  | some f => .ok (pySliceTo f (pyRfind f '/'))

/-- C10. Manual Trigger input selection: the captured-data path handed
to the manually triggered job is the last listed capture file's URI
truncated at its last slash, and it depends only on that last element:
any listing with the same last element yields the same path, so only
that single time partition is analyzed. -/
theorem manual_trigger_input_selection (capture_files : List String)
    (f : String) (h : capture_files.getLast? = some f) :
    data_capture_path_of capture_files =
      .ok (pySliceTo f (pyRfind f '/')) ∧
    ∀ other : List String, other.getLast? = some f →
      data_capture_path_of other = data_capture_path_of capture_files := by
  refine ⟨by simp [data_capture_path_of, h], ?_⟩
  intro other h2
  simp [data_capture_path_of, h, h2]

/-- Two capture files from different hour partitions, as in cell 50. -/
def demoCaptureFiles : List String :=
  ["s3://bucket/aim362/monitoring/datacapture/ep/AllTraffic/2019/12/01/10/f1.jsonl",
   "s3://bucket/aim362/monitoring/datacapture/ep/AllTraffic/2019/12/01/11/f2.jsonl"]

/-- The last element of `demoCaptureFiles`. -/
def demoLastCaptureFile : String :=
  "s3://bucket/aim362/monitoring/datacapture/ep/AllTraffic/2019/12/01/11/f2.jsonl"

/-- Witness for C10 at a concrete listing: the derived path is the last
file's hour partition, and only the last element matters. -/
theorem manual_trigger_input_selection_witness :
    (data_capture_path_of demoCaptureFiles =
      .ok (pySliceTo demoLastCaptureFile (pyRfind demoLastCaptureFile '/')) ∧
    ∀ other : List String, other.getLast? = some demoLastCaptureFile →
      data_capture_path_of other = data_capture_path_of demoCaptureFiles) ∧
    data_capture_path_of demoCaptureFiles =
      .ok "s3://bucket/aim362/monitoring/datacapture/ep/AllTraffic/2019/12/01/11" :=
  ⟨manual_trigger_input_selection demoCaptureFiles demoLastCaptureFile rfl,
   by rfl⟩

/-! ## Baseline data preparation (cell 23)

Cell 23 iterates over the objects under `aim362/data/val/`, computes
`target_key = key.replace('data/val/', 'monitoring/baselining/data/')
.replace('.part', '.csv')` and copies each object to its target key;
the sources are copied, not moved. The bucket is embedded as an
association list with most-recent-first lookup, matching the object
store's put-overwrites-by-key semantics. -/

/-- Embedding of the `target_key` expression of cell 23, with Python's
`str.replace` semantics. -/
def target_key (key : String) : String :=
  pyReplace (pyReplace key "data/val/" "monitoring/baselining/data/")
    ".part" ".csv"

/-- Store an object: a later binding for the same key shadows any
earlier one, as an object-store put overwrites by key. -/
def putObject (b : List (String × String)) (k v : String) :
    List (String × String) :=
  (k, v) :: b

/-- Read an object by key. -/
def getObject (b : List (String × String)) (k : String) : Option String :=
  (b.find? (fun o => o.1 == k)).map (fun o => o.2)

/-- The objects listed by
`bucket.objects.filter(Prefix="aim362/data/val/")`. -/
def val_data_objects (b : List (String × String)) :
    List (String × String) :=
  b.filter (fun o => "aim362/data/val/".data.isPrefixOf o.1.data)

/-- Embedding of cell 23's loop: copy every object under the
validation-data path to its target key. -/
def copy_baseline_data (b : List (String × String)) :
    List (String × String) :=
  (val_data_objects b).foldl
    (fun acc o => putObject acc (target_key o.1) o.2) b

theorem getObject_putObject_self (b : List (String × String))
    (k v : String) : getObject (putObject b k v) k = some v := by
  simp [getObject, putObject]

theorem getObject_putObject_ne (b : List (String × String))
    (k v k' : String) (h : k' ≠ k) :
    getObject (putObject b k v) k' = getObject b k' := by
  simp [getObject, putObject, List.find?]
  have : (k == k') = false := by
    exact beq_false_of_ne (fun he => h he.symm)
  simp [this]

theorem getObject_foldl_put_of_ne (l : List (String × String))
    (acc : List (String × String)) (k' : String)
    (h : ∀ o ∈ l, target_key o.1 ≠ k') :
    getObject (l.foldl (fun acc o => putObject acc (target_key o.1) o.2) acc)
        k' = getObject acc k' := by
  induction l generalizing acc with
  | nil => rfl
  | cons o' l' ih =>
    simp only [List.foldl]
    rw [ih _ (fun o ho => h o (by simp [ho]))]
    exact getObject_putObject_ne _ _ _ _ (fun he => h o' (by simp) he.symm)

theorem getObject_foldl_put_of_mem (l : List (String × String))
    (acc : List (String × String)) (o : String × String) (ho : o ∈ l)
    (hnd : (l.map (fun o => target_key o.1)).Nodup) :
    getObject (l.foldl (fun acc o => putObject acc (target_key o.1) o.2) acc)
        (target_key o.1) = some o.2 := by
  induction l generalizing acc with
  | nil => cases ho
  | cons o' l' ih =>
    simp only [List.map, List.nodup_cons] at hnd
    rcases List.mem_cons.1 ho with rfl | hmem
    · simp only [List.foldl]
      rw [getObject_foldl_put_of_ne]
      · exact getObject_putObject_self _ _ _
      · intro o'' ho'' he
        exact hnd.1 (he ▸ List.mem_map_of_mem (fun o => target_key o.1) ho'')
    · exact ih _ hmem hnd.2

/-- Shape of the first `replace`: on a key starting with
`aim362/data/val/` the match at offset 7 rewrites the path segment and
the scan continues on the remainder. -/
theorem replace1_shape (rest : List Char) :
    pyReplaceAux (rest.length + 16) ("aim362/data/val/".data ++ rest)
        "data/val/".data "monitoring/baselining/data/".data =
      "aim362/monitoring/baselining/data/".data ++
        pyReplaceAux (rest.length + 8) rest
          "data/val/".data "monitoring/baselining/data/".data := rfl

/-- Shape of the second `replace`: `.part` cannot match inside the
dot-free rewritten path segment, which is emitted unchanged. -/
theorem replace2_shape (rest : List Char) :
    pyReplaceAux (rest.length + 34)
        ("aim362/monitoring/baselining/data/".data ++ rest)
        ".part".data ".csv".data =
      "aim362/monitoring/baselining/data/".data ++
        pyReplaceAux rest.length rest ".part".data ".csv".data := rfl

theorem pyReplace_data_of_ne (s old new : String) (h : old.data ≠ []) :
    (pyReplace s old new).data =
      pyReplaceAux s.data.length s.data old.data new.data := by
  simp [pyReplace, List.isEmpty_iff, h]

/-- The target key of a key under the validation-data path starts with
the baselining path. -/
theorem target_key_shape (suffix : String) :
    ∃ t : List Char,
      (target_key ("aim362/data/val/" ++ suffix)).data =
        "aim362/monitoring/baselining/data/".data ++ t := by
  have hd : ("aim362/data/val/" ++ suffix).data =
      "aim362/data/val/".data ++ suffix.data := String.data_append ..
  have hlen : ("aim362/data/val/" ++ suffix).data.length =
      suffix.data.length + 16 := by
    rw [hd, List.length_append]
    simp [Nat.add_comm]
  have h1 : (pyReplace ("aim362/data/val/" ++ suffix)
        "data/val/" "monitoring/baselining/data/").data =
      "aim362/monitoring/baselining/data/".data ++
        pyReplaceAux (suffix.data.length + 8) suffix.data
          "data/val/".data "monitoring/baselining/data/".data := by
    rw [pyReplace_data_of_ne _ _ _ (by simp), hlen, hd]
    exact replace1_shape suffix.data
  set t1 := pyReplaceAux (suffix.data.length + 8) suffix.data
    "data/val/".data "monitoring/baselining/data/".data with ht1
  refine ⟨pyReplaceAux t1.length t1 ".part".data ".csv".data, ?_⟩
  have hlen2 : (pyReplace ("aim362/data/val/" ++ suffix)
        "data/val/" "monitoring/baselining/data/").data.length =
      t1.length + 34 := by
    rw [h1, List.length_append]
    simp [Nat.add_comm]
  rw [target_key, pyReplace_data_of_ne _ _ _ (by simp), hlen2, h1]
  exact replace2_shape t1

/-- A target key never collides with a key under the validation-data
path: they differ at character 7 (`m` versus `d`). -/
theorem target_key_ne_val_key (suffix u : String) :
    target_key ("aim362/data/val/" ++ suffix) ≠ "aim362/data/val/" ++ u := by
  obtain ⟨t, ht⟩ := target_key_shape suffix
  intro h
  have h7m : (target_key ("aim362/data/val/" ++ suffix)).data.get? 7 =
      some 'm' := by rw [ht]; rfl
  have h7d : ("aim362/data/val/" ++ u).data.get? 7 = some 'd' := by
    rw [String.data_append]; rfl
  rw [h, h7d] at h7m
  simp at h7m

/-- A key under the validation-data path decomposes as the path prefix
followed by a suffix. -/
theorem val_key_decompose (key : String)
    (h : "aim362/data/val/".data.isPrefixOf key.data = true) :
    ∃ u : String, key = "aim362/data/val/" ++ u := by
  rw [List.isPrefixOf_iff_prefix] at h
  obtain ⟨u, hu⟩ := h
  refine ⟨⟨u⟩, ?_⟩
  apply String.ext
  rw [String.data_append, ← hu]

/-- C9. Baseline data preparation: for every object stored under
`aim362/data/val/`, the loop of cell 23 creates a copy (not a move):
the object remains readable at its original key with unchanged
content, and a copy with the same content exists at the key obtained
by replacing `data/val/` with `monitoring/baselining/data/` and
`.part` with `.csv`, provided the rewritten keys are pairwise
distinct. -/
theorem baseline_copy_correct (bucket : List (String × String))
    (key v : String) (hmem : (key, v) ∈ bucket)
    (hpre : "aim362/data/val/".data.isPrefixOf key.data = true)
    (hnd : ((val_data_objects bucket).map
      (fun o => target_key o.1)).Nodup) :
    getObject (copy_baseline_data bucket) key = getObject bucket key ∧
    getObject (copy_baseline_data bucket) (target_key key) = some v := by
  constructor
  · apply getObject_foldl_put_of_ne
    intro o ho
    have hopre : "aim362/data/val/".data.isPrefixOf o.1.data = true :=
      (List.mem_filter.1 ho).2
    obtain ⟨uo, huo⟩ := val_key_decompose o.1 hopre
    obtain ⟨uk, huk⟩ := val_key_decompose key hpre
    rw [huo, huk]
    exact target_key_ne_val_key uo uk
  · apply getObject_foldl_put_of_mem (o := (key, v))
    · exact List.mem_filter.2 ⟨hmem, hpre⟩
    · exact hnd

/-- Demonstration bucket: two validation objects and one unrelated
object. -/
def demoBucket : List (String × String) :=
  [("aim362/data/val/part_000.part", "rows0"),
   ("aim362/data/val/part_001.part", "rows1"),
   ("aim362/other/file.txt", "x")]

/-- Witness for C9 at a concrete bucket: the source object is
unchanged and its copy sits at the rewritten key with the same
content. -/
theorem baseline_copy_correct_witness :
    (getObject (copy_baseline_data demoBucket)
        "aim362/data/val/part_000.part" =
      getObject demoBucket "aim362/data/val/part_000.part" ∧
    getObject (copy_baseline_data demoBucket)
        (target_key "aim362/data/val/part_000.part") = some "rows0") ∧
    target_key "aim362/data/val/part_000.part" =
      "aim362/monitoring/baselining/data/part_000.csv" :=
  ⟨baseline_copy_correct demoBucket "aim362/data/val/part_000.part"
      "rows0" (by simp [demoBucket]) (by rfl) (by decide),
   by rfl⟩

end DeployAndMonitor
